import Mathlib

/-!
Verification of the schema-migration and local-storage layer of the
chouannNovel backend (src/src-tauri/src/lib.rs).

The repository source declares a list of six SQL migrations handed to the
framework's SQL plugin. Two models are developed here:

* a schema-level model of the migration scripts and of the migration runner
  (the runner itself lives in the external SQL plugin, so it is modelled
  from the specification, section 4.1);
* a row-level model of the final schema, whose integrity checks (primary
  keys, foreign keys with ON DELETE CASCADE, the CHECK on global_config.id)
  are read off the CREATE TABLE statements in the source.
-/

namespace ChouannNovel

/-- Schema of one table: its name and the list of its column names, in
declaration order. -/
structure TableSchema where
  name : String
  cols : List String
deriving DecidableEq

/-- Row of global_config as written by the migration scripts: the seed
statement of migration 1 inserts exactly the columns id, ai_providers and
theme. -/
structure GCSeedRow where
  id : Int
  ai_providers : String
  theme : String
deriving DecidableEq

/-- Schema-level database state: the tables with their columns, the created
index names, and the rows of global_config (the only table the migration
scripts insert into). -/
structure MDb where
  tables : List TableSchema
  indexes : List String
  gcRows : List GCSeedRow
deriving DecidableEq

/-- The four kinds of SQL statements occurring in the migration scripts of
the source: guarded table creation (CREATE TABLE IF NOT EXISTS), guarded
index creation (CREATE INDEX IF NOT EXISTS), unguarded column addition
(ALTER TABLE ... ADD COLUMN), and the seed INSERT OR IGNORE into
global_config. -/
inductive MStmt where
  | createTable (tname : String) (cols : List String)
  | createIndex (iname : String)
  | addColumn (tname : String) (cname : String)
  | seedGlobalConfig
deriving DecidableEq

/-- Whether a table of the given name exists. -/
def MDb.hasTable (db : MDb) (t : String) : Bool :=
  db.tables.any (fun ts => ts.name = t)

/-- Execute one SQL statement against the schema-level state, with SQLite
semantics: the IF NOT EXISTS forms silently skip an existing object, an
ALTER TABLE ... ADD COLUMN fails on a missing table or an already existing
column (SQLite offers no guard for column addition), and INSERT OR IGNORE
skips the insert when a row with the same primary key exists. -/
def execStmt (db : MDb) : MStmt → Except String MDb
  | MStmt.createTable t cols =>
      if db.hasTable t then Except.ok db
      else Except.ok { db with tables := db.tables ++ [⟨t, cols⟩] }
  | MStmt.createIndex i =>
      if db.indexes.contains i then Except.ok db
      else Except.ok { db with indexes := db.indexes ++ [i] }
  | MStmt.addColumn t c =>
      match db.tables.find? (fun ts => ts.name = t) with
      | none => Except.error ("no such table: " ++ t)
      | some ts =>
          if ts.cols.contains c then Except.error ("duplicate column name: " ++ c)
          else
            let addCol := fun (ts2 : TableSchema) =>
              if ts2.name = t then TableSchema.mk ts2.name (ts2.cols ++ [c]) else ts2
            Except.ok { db with tables := db.tables.map addCol }
  | MStmt.seedGlobalConfig =>
      if db.gcRows.any (fun r => r.id = 1) then Except.ok db
      else Except.ok { db with gcRows := db.gcRows ++ [⟨1, "\x7b\x7d", "system"⟩] }

/-- Direction of a migration, mirroring the MigrationKind of the source
(all six migrations of the source are Up migrations). -/
inductive MigKind where
  | up
  | down
deriving DecidableEq

/-- One migration step: version number, human-readable description, the
statements of its SQL script in source order, and its kind. -/
structure Migration where
  version : Nat
  description : String
  stmts : List MStmt
  kind : MigKind
deriving DecidableEq

/-- Migration 1 (init_database) of the source: the nine CREATE TABLE IF NOT
EXISTS statements, the global_config seed, and the seventeen CREATE INDEX
IF NOT EXISTS statements, in source order. -/
def migration1 : Migration :=
  { version := 1
    description := "init_database"
    stmts :=
      [ MStmt.createTable "projects"
          ["id", "name", "description", "created_at", "updated_at"],
        MStmt.createTable "workflows"
          ["id", "project_id", "name", "description", "loop_max_count",
           "timeout_seconds", "created_at", "updated_at"],
        MStmt.createTable "nodes"
          ["id", "workflow_id", "type", "name", "config", "order_index",
           "block_id", "parent_block_id", "created_at", "updated_at"],
        MStmt.createTable "settings"
          ["id", "project_id", "category", "name", "content", "enabled",
           "created_at", "updated_at"],
        MStmt.createTable "setting_prompts"
          ["id", "project_id", "category", "prompt_template", "enabled"],
        MStmt.createTable "global_config"
          ["id", "ai_providers", "theme", "default_loop_max", "default_timeout"],
        MStmt.createTable "executions"
          ["id", "workflow_id", "status", "input", "final_output",
           "variables_snapshot", "started_at", "finished_at"],
        MStmt.createTable "node_results"
          ["id", "execution_id", "node_id", "iteration", "input", "output",
           "resolved_config", "status", "started_at", "finished_at"],
        MStmt.createTable "workflow_versions"
          ["id", "workflow_id", "version_number", "snapshot", "description",
           "created_at"],
        MStmt.seedGlobalConfig,
        MStmt.createIndex "idx_workflows_project_id",
        MStmt.createIndex "idx_workflows_updated_at",
        MStmt.createIndex "idx_nodes_workflow_id",
        MStmt.createIndex "idx_nodes_order_index",
        MStmt.createIndex "idx_settings_project_id",
        MStmt.createIndex "idx_settings_project_category",
        MStmt.createIndex "idx_settings_name",
        MStmt.createIndex "idx_setting_prompts_project_id",
        MStmt.createIndex "idx_setting_prompts_project_category",
        MStmt.createIndex "idx_executions_workflow_id",
        MStmt.createIndex "idx_executions_started_at",
        MStmt.createIndex "idx_executions_workflow_started",
        MStmt.createIndex "idx_node_results_execution_id",
        MStmt.createIndex "idx_node_results_node_id",
        MStmt.createIndex "idx_node_results_started_at",
        MStmt.createIndex "idx_workflow_versions_workflow_id",
        MStmt.createIndex "idx_workflow_versions_number" ]
    kind := MigKind.up }

/-- Migration 2 (add_settings_hierarchy) of the source. -/
def migration2 : Migration :=
  { version := 2
    description := "add_settings_hierarchy"
    stmts :=
      [ MStmt.addColumn "settings" "parent_id",
        MStmt.addColumn "settings" "order_index",
        MStmt.createIndex "idx_settings_parent_id" ]
    kind := MigKind.up }

/-- Migration 3 (add_token_usage_to_node_results) of the source. -/
def migration3 : Migration :=
  { version := 3
    description := "add_token_usage_to_node_results"
    stmts := [ MStmt.addColumn "node_results" "token_usage" ]
    kind := MigKind.up }

/-- Migration 4 (add_settings_injection_fields) of the source. -/
def migration4 : Migration :=
  { version := 4
    description := "add_settings_injection_fields"
    stmts :=
      [ MStmt.addColumn "settings" "injection_mode",
        MStmt.addColumn "settings" "priority",
        MStmt.addColumn "settings" "keywords",
        MStmt.addColumn "settings" "summary" ]
    kind := MigKind.up }

/-- Migration 5 (add_setting_relations_table) of the source. -/
def migration5 : Migration :=
  { version := 5
    description := "add_setting_relations_table"
    stmts :=
      [ MStmt.createTable "setting_relations"
          ["id", "project_id", "source_id", "target_id", "label",
           "description", "bidirectional", "created_at"],
        MStmt.createIndex "idx_relations_source",
        MStmt.createIndex "idx_relations_target",
        MStmt.createIndex "idx_relations_project" ]
    kind := MigKind.up }

/-- Migration 6 (add_setting_assistant_config) of the source. -/
def migration6 : Migration :=
  { version := 6
    description := "add_setting_assistant_config"
    stmts := [ MStmt.addColumn "global_config" "setting_assistant" ]
    kind := MigKind.up }

/-- The migration list registered in the run function of the source, in
source order. -/
def migrations : List Migration :=
  [migration1, migration2, migration3, migration4, migration5, migration6]

/-- State carried by the migration runner: the list of version numbers
recorded as applied (the persistent migration-tracking table of the
runner), plus the database state. -/
structure RunnerState where
  applied : List Nat
  db : MDb
deriving DecidableEq

/-- Highest version in a list of recorded versions (0 when none). -/
def maxVersion (vs : List Nat) : Nat := vs.foldr Nat.max 0

/-- Insert a migration into a version-sorted list, keeping it sorted. -/
def insertByVersion (m : Migration) : List Migration → List Migration
  | [] => [m]
  | m2 :: rest =>
      if m.version ≤ m2.version then m :: m2 :: rest
      else m2 :: insertByVersion m rest

/-- Sort a list of migrations by ascending version number. -/
def sortByVersion : List Migration → List Migration
  | [] => []
  | m :: rest => insertByVersion m (sortByVersion rest)

/-- Modelled from the spec: the pending steps of a run are exactly the
registered steps whose version number exceeds the highest version already
applied, taken in ascending version order (spec section 4.1; the runner
itself lives in the external SQL plugin and is not part of src/). -/
def pendingMigs (ms : List Migration) (maxApplied : Nat) : List Migration :=
  sortByVersion (ms.filter (fun m => maxApplied < m.version))

/-- Execute the statements of one migration step in order, stopping at the
first failing statement. -/
def execMigration (db : MDb) (m : Migration) : Except String MDb :=
  m.stmts.foldlM execStmt db

/-- Modelled from the spec: apply a list of pending steps in order,
recording each successfully applied version, and surface the first failure
as a fatal error (spec section 4.1). -/
def applyPending (s : RunnerState) : List Migration → Except String RunnerState
  | [] => Except.ok s
  | m :: rest =>
      match execMigration s.db m with
      | Except.error e => Except.error e
      | Except.ok db2 => applyPending ⟨s.applied ++ [m.version], db2⟩ rest

/-- Highest registered version among the known migration steps. -/
def maxKnown (ms : List Migration) : Nat := maxVersion (ms.map Migration.version)

/-- Modelled from the spec: one invocation of the migration runner.  A
recorded version higher than any known step (downgrade scenario) is a
fatal configuration error; otherwise the pending steps are applied in
ascending version order (spec section 4.1; the runner lives in the
external SQL plugin and is not part of src/). -/
def runMigrations (ms : List Migration) (s : RunnerState) : Except String RunnerState :=
  if maxKnown ms < maxVersion s.applied then
    Except.error "database version is newer than any known migration"
  else applyPending s (pendingMigs ms (maxVersion s.applied))

/-- Runner state of a fresh (empty) database file: nothing recorded as
applied, no tables, no indexes, no rows. -/
def freshRunnerState : RunnerState := ⟨[], ⟨[], [], []⟩⟩

/-- The runner state produced by running the full migration sequence on a
fresh database file. -/
def migratedState : RunnerState :=
  match runMigrations migrations freshRunnerState with
  | Except.ok s => s
  | Except.error _ => freshRunnerState

/-- Whether an Except value is a success. -/
def exceptOk {ε α : Type} : Except ε α → Bool
  | Except.ok _ => true
  | Except.error _ => false

/-!
Row-level model of the final schema (after all six migrations).  A column
declared NOT NULL or PRIMARY KEY is a plain field; every other column is an
Option.  Column order follows the schema after migration, with columns
added by later migrations appended in migration order.
-/

/-- Row of the projects table. -/
structure ProjectRow where
  id : String
  name : String
  description : Option String
  created_at : Option String
  updated_at : Option String
deriving DecidableEq

/-- Row of the workflows table. -/
structure WorkflowRow where
  id : String
  project_id : String
  name : String
  description : Option String
  loop_max_count : Option Int
  timeout_seconds : Option Int
  created_at : Option String
  updated_at : Option String
deriving DecidableEq

/-- Row of the nodes table. -/
structure NodeRow where
  id : String
  workflow_id : String
  type : String
  name : String
  config : String
  order_index : Int
  block_id : Option String
  parent_block_id : Option String
  created_at : Option String
  updated_at : Option String
deriving DecidableEq

/-- Row of the settings table, with the columns added by migrations 2
(parent_id, order_index) and 4 (injection_mode, priority, keywords,
summary) appended. -/
structure SettingRow where
  id : String
  project_id : String
  category : String
  name : String
  content : String
  enabled : Option Int
  created_at : Option String
  updated_at : Option String
  parent_id : Option String
  order_index : Option Int
  injection_mode : Option String
  priority : Option String
  keywords : Option String
  summary : Option String
deriving DecidableEq

/-- Row of the setting_prompts table. -/
structure SettingPromptRow where
  id : String
  project_id : String
  category : String
  prompt_template : String
  enabled : Option Int
deriving DecidableEq

/-- Row of the global_config table, with the setting_assistant column added
by migration 6 appended.  The schema constrains id by CHECK (id = 1). -/
structure GlobalConfigRow where
  id : Int
  ai_providers : String
  theme : Option String
  default_loop_max : Option Int
  default_timeout : Option Int
  setting_assistant : Option String
deriving DecidableEq

/-- Row of the executions table. -/
structure ExecutionRow where
  id : String
  workflow_id : String
  status : String
  input : Option String
  final_output : Option String
  variables_snapshot : Option String
  started_at : Option String
  finished_at : Option String
deriving DecidableEq

/-- Row of the node_results table, with the token_usage column added by
migration 3 appended.  The node_id column carries no foreign-key clause in
the schema. -/
structure NodeResultRow where
  id : String
  execution_id : String
  node_id : String
  iteration : Option Int
  input : Option String
  output : Option String
  resolved_config : Option String
  status : String
  started_at : Option String
  finished_at : Option String
  token_usage : Option String
deriving DecidableEq

/-- Row of the workflow_versions table. -/
structure WorkflowVersionRow where
  id : String
  workflow_id : String
  version_number : Int
  snapshot : String
  description : Option String
  created_at : Option String
deriving DecidableEq

/-- Row of the setting_relations table (migration 5). -/
structure SettingRelationRow where
  id : String
  project_id : String
  source_id : String
  target_id : String
  label : Option String
  description : Option String
  bidirectional : Option Int
  created_at : Option String
deriving DecidableEq

/-- Row-level database state: one list of rows per table of the final
schema. -/
structure Db where
  projects : List ProjectRow
  workflows : List WorkflowRow
  nodes : List NodeRow
  settings : List SettingRow
  setting_prompts : List SettingPromptRow
  global_config : List GlobalConfigRow
  executions : List ExecutionRow
  node_results : List NodeResultRow
  workflow_versions : List WorkflowVersionRow
  setting_relations : List SettingRelationRow
deriving DecidableEq

/-- Error taxonomy of the store operations (spec section 7). -/
inductive StoreError where
  | notFound
  | constraintViolation
deriving DecidableEq

/-- Row-level state right after the full migration sequence on a fresh
file: every entity table empty, global_config holding the single seeded
row of migration 1 (ai_providers the empty object, theme system, the
default_loop_max and default_timeout column defaults 10 and 300, and NULL
in the setting_assistant column added by migration 6). -/
def initialDb : Db :=
  { projects := []
    workflows := []
    nodes := []
    settings := []
    setting_prompts := []
    global_config := [⟨1, "\x7b\x7d", some "system", some 10, some 300, none⟩]
    executions := []
    node_results := []
    workflow_versions := []
    setting_relations := [] }

/-- The INSERT OR IGNORE seed statement of migration 1 at row level: when a
row with the primary key 1 already exists the statement is ignored and no
field of any row changes; otherwise the seed row is inserted with the
column defaults for the unlisted columns. -/
def seedGlobalConfigRows (rows : List GlobalConfigRow) : List GlobalConfigRow :=
  if rows.any (fun r => r.id = 1) then rows
  else rows ++ [⟨1, "\x7b\x7d", some "system", some 10, some 300, none⟩]

/-- Modelled from the spec: Get of the GlobalConfig singleton (spec
sections 4.2 and 9; the access layer is outside src/).  Reads the row with
the sentinel id 1. -/
def getGlobalConfig (db : Db) : Option GlobalConfigRow :=
  db.global_config.find? (fun r => r.id = 1)

/-- Modelled from the spec: Set of the GlobalConfig singleton (spec
sections 4.2 and 9; the access layer is outside src/).  Overwrites the
fields of the sentinel row, keeping its id fixed to 1 as required by the
CHECK (id = 1) clause of the schema; no row is created or deleted. -/
def setGlobalConfig (db : Db) (c : GlobalConfigRow) : Db :=
  let put := fun (r : GlobalConfigRow) =>
    if r.id = 1 then GlobalConfigRow.mk 1 c.ai_providers c.theme
      c.default_loop_max c.default_timeout c.setting_assistant else r
  { db with global_config := db.global_config.map put }

/-- Whether the global_config table satisfies its schema constraints and
the singleton invariant: exactly one row, carrying the sentinel id 1. -/
def gcSingleton (db : Db) : Bool :=
  db.global_config.length = 1 && db.global_config.all (fun r => r.id = 1)

/-- Modelled from the spec: Create for a Workflow (spec section 4.2; the
access layer is outside src/).  The checks are read off the schema of
migration 1: uniqueness of the primary key id and existence of the
project_id foreign-key parent.  The schema declares no other constraint on
workflows — in particular no CHECK on loop_max_count or timeout_seconds. -/
def insertWorkflow (db : Db) (w : WorkflowRow) : Except StoreError Db :=
  if db.workflows.any (fun w2 => w2.id = w.id) then
    Except.error StoreError.constraintViolation
  else if db.projects.any (fun p => p.id = w.project_id) then
    Except.ok { db with workflows := db.workflows ++ [w] }
  else Except.error StoreError.constraintViolation

/-- Partial-field patch for a Workflow update (spec section 4.2): an outer
none leaves the column unchanged. -/
structure WorkflowPatch where
  name : Option String
  description : Option (Option String)
  loop_max_count : Option (Option Int)
  timeout_seconds : Option (Option Int)
deriving DecidableEq

/-- Apply a patch field when present. -/
def patchField {α : Type} (old : α) : Option α → α
  | some v => v
  | none => old

/-- Apply a workflow patch to one row, refreshing the update timestamp. -/
def applyWorkflowPatch (w : WorkflowRow) (p : WorkflowPatch) (ts : String) : WorkflowRow :=
  { w with
    name := patchField w.name p.name
    description := patchField w.description p.description
    loop_max_count := patchField w.loop_max_count p.loop_max_count
    timeout_seconds := patchField w.timeout_seconds p.timeout_seconds
    updated_at := some ts }

/-- Modelled from the spec: Update for a Workflow (spec section 4.2; the
access layer is outside src/): fails with NotFound when the id is absent,
otherwise applies the partial fields.  The schema imposes no constraint on
the new values. -/
def updateWorkflow (db : Db) (wid : String) (p : WorkflowPatch) (ts : String) :
    Except StoreError Db :=
  if db.workflows.any (fun w => w.id = wid) then
    let upd := fun (w : WorkflowRow) => if w.id = wid then applyWorkflowPatch w p ts else w
    Except.ok { db with workflows := db.workflows.map upd }
  else Except.error StoreError.notFound

/-- Modelled from the spec: Create for a Setting (spec section 4.2; the
access layer is outside src/).  The checks are read off the schema:
uniqueness of the primary key id and existence of the project_id
foreign-key parent.  The parent_id column added by migration 2 carries no
foreign-key clause, so no check involves it. -/
def insertSetting (db : Db) (s : SettingRow) : Except StoreError Db :=
  if db.settings.any (fun s2 => s2.id = s.id) then
    Except.error StoreError.constraintViolation
  else if db.projects.any (fun p => p.id = s.project_id) then
    Except.ok { db with settings := db.settings ++ [s] }
  else Except.error StoreError.constraintViolation

/-- Partial-field patch for a Setting update. -/
structure SettingPatch where
  name : Option String
  content : Option String
  enabled : Option (Option Int)
  parent_id : Option (Option String)
  order_index : Option (Option Int)
deriving DecidableEq

/-- Apply a setting patch to one row, refreshing the update timestamp. -/
def applySettingPatch (s : SettingRow) (p : SettingPatch) (ts : String) : SettingRow :=
  { s with
    name := patchField s.name p.name
    content := patchField s.content p.content
    enabled := patchField s.enabled p.enabled
    parent_id := patchField s.parent_id p.parent_id
    order_index := patchField s.order_index p.order_index
    updated_at := some ts }

/-- Modelled from the spec: Update for a Setting (spec section 4.2; the
access layer is outside src/): fails with NotFound when the id is absent,
otherwise applies the partial fields.  No check involves parent_id. -/
def updateSetting (db : Db) (sid : String) (p : SettingPatch) (ts : String) :
    Except StoreError Db :=
  if db.settings.any (fun s => s.id = sid) then
    let upd := fun (s : SettingRow) => if s.id = sid then applySettingPatch s p ts else s
    Except.ok { db with settings := db.settings.map upd }
  else Except.error StoreError.notFound

/-- Ids of the workflows belonging to a project. -/
def workflowIdsOf (db : Db) (pid : String) : List String :=
  (db.workflows.filter (fun w => w.project_id = pid)).map WorkflowRow.id

/-- Ids of the executions belonging to any of the given workflows. -/
def executionIdsOf (db : Db) (wids : List String) : List String :=
  (db.executions.filter (fun e => e.workflow_id ∈ wids)).map ExecutionRow.id

/-- Ids of the settings belonging to a project. -/
def settingIdsOf (db : Db) (pid : String) : List String :=
  (db.settings.filter (fun s => s.project_id = pid)).map SettingRow.id

/-- Modelled from the spec: Delete for a Project (spec section 4.2; the
access layer is outside src/).  The cascade follows exactly the FOREIGN
KEY ... ON DELETE CASCADE clauses of migrations 1 and 5: workflows,
settings and setting_prompts reference projects; nodes, executions and
workflow_versions reference workflows; node_results reference executions;
setting_relations reference projects and both setting endpoints.  The
node_id column of node_results carries no foreign key, so no cascade runs
from nodes. -/
def deleteProject (db : Db) (pid : String) : Except StoreError Db :=
  if db.projects.any (fun p => p.id = pid) then
    Except.ok
      { projects := db.projects.filter (fun p => ¬ p.id = pid)
        workflows := db.workflows.filter (fun w => ¬ w.project_id = pid)
        nodes := db.nodes.filter (fun n => ¬ n.workflow_id ∈ workflowIdsOf db pid)
        settings := db.settings.filter (fun s => ¬ s.project_id = pid)
        setting_prompts := db.setting_prompts.filter (fun sp => ¬ sp.project_id = pid)
        global_config := db.global_config
        executions := db.executions.filter (fun e => ¬ e.workflow_id ∈ workflowIdsOf db pid)
        node_results := db.node_results.filter
          (fun r => ¬ r.execution_id ∈ executionIdsOf db (workflowIdsOf db pid))
        workflow_versions := db.workflow_versions.filter
          (fun v => ¬ v.workflow_id ∈ workflowIdsOf db pid)
        setting_relations := db.setting_relations.filter
          (fun sr => ¬ sr.project_id = pid ∧ ¬ sr.source_id ∈ settingIdsOf db pid ∧
            ¬ sr.target_id ∈ settingIdsOf db pid) }
  else Except.error StoreError.notFound

/-- Modelled from the spec: Delete for a Node (spec section 4.2; the
access layer is outside src/).  No table of the schema declares a foreign
key referencing nodes, so the delete removes the node row and cascades
nowhere. -/
def deleteNode (db : Db) (nid : String) : Except StoreError Db :=
  if db.nodes.any (fun n => n.id = nid) then
    Except.ok { db with nodes := db.nodes.filter (fun n => ¬ n.id = nid) }
  else Except.error StoreError.notFound

/-- Next version number for a workflow: one more than the highest
version_number recorded for it (so a workflow without versions starts at
1). -/
def nextVersionNumber (db : Db) (wfid : String) : Int :=
  (db.workflow_versions.filter (fun v => v.workflow_id = wfid)).foldr
    (fun v acc => max v.version_number acc) 0 + 1

/-- Modelled from the spec: creation of a WorkflowVersion snapshot (spec
sections 3 and 8; the access layer is outside src/).  The primary-key and
workflow foreign-key checks are read off the schema of migration 1; the
version_number is the next strictly larger number for that workflow, per
the spec invariant that version numbers increase 1, 2, 3 in creation
order.  Rows are only ever appended, never rewritten. -/
def createWorkflowVersion (db : Db) (vid wfid snap : String)
    (descr : Option String) (ts : String) : Except StoreError Db :=
  if db.workflow_versions.any (fun v => v.id = vid) then
    Except.error StoreError.constraintViolation
  else if db.workflows.any (fun w => w.id = wfid) then
    let row := WorkflowVersionRow.mk vid wfid (nextVersionNumber db wfid) snap descr (some ts)
    Except.ok { db with workflow_versions := db.workflow_versions ++ [row] }
  else Except.error StoreError.constraintViolation

/-- Read of one WorkflowVersion by id (spec section 4.2 Read). -/
def readWorkflowVersion (db : Db) (vid : String) : Option WorkflowVersionRow :=
  db.workflow_versions.find? (fun v => v.id = vid)

/-- Bounds invariant on a workflow row claimed in spec section 3:
loop_max_count at least 1 and timeout_seconds at least 0 (a NULL value
satisfies neither bound). -/
def workflowBoundsOk (w : WorkflowRow) : Bool :=
  (match w.loop_max_count with
   | some v => decide (1 ≤ v)
   | none => false) &&
  (match w.timeout_seconds with
   | some v => decide (0 ≤ v)
   | none => false)

/-- Workflow row built with the column defaults of the schema of migration
1: description NULL, loop_max_count 10, timeout_seconds 300. -/
def mkWorkflowDefaults (wid pid wname : String) (ts : Option String) : WorkflowRow :=
  ⟨wid, pid, wname, none, some 10, some 300, ts, ts⟩

/-!
Concrete database states used as inputs for witnesses and
counterexamples.
-/

/-- Two-project state: project p1 owns workflow w1 with node n1, execution
e1 and node result r1, plus a setting tree, a prompt and a relation;
project p2 owns workflow w2 with execution e2 whose node result r2 refers,
through the unconstrained node_id column, to node n1 of project p1. -/
def cascadeCexDb : Db :=
  { projects :=
      [⟨"p1", "Alpha", none, none, none⟩, ⟨"p2", "Beta", none, none, none⟩]
    workflows :=
      [⟨"w1", "p1", "Main", none, some 10, some 300, none, none⟩,
       ⟨"w2", "p2", "Side", none, some 10, some 300, none, none⟩]
    nodes :=
      [⟨"n1", "w1", "prompt", "Draft", "\x7b\x7d", 0, none, none, none, none⟩]
    settings :=
      [⟨"s1", "p1", "character", "Hero", "tall", some 1, none, none, none,
        some 0, some "manual", some "medium", none, none⟩,
       ⟨"s2", "p1", "character", "Mentor", "wise", some 1, none, none,
        some "s1", some 1, some "manual", some "medium", none, none⟩]
    setting_prompts :=
      [⟨"sp1", "p1", "character", "describe", some 1⟩]
    global_config :=
      [⟨1, "\x7b\x7d", some "system", some 10, some 300, none⟩]
    executions :=
      [⟨"e1", "w1", "completed", none, none, none, none, none⟩,
       ⟨"e2", "w2", "completed", none, none, none, none, none⟩]
    node_results :=
      [⟨"r1", "e1", "n1", some 1, none, none, none, "completed", none, none, none⟩,
       ⟨"r2", "e2", "n1", some 1, none, none, none, "completed", none, none, none⟩]
    workflow_versions :=
      [⟨"v1", "w1", 1, "snap1", none, none⟩]
    setting_relations :=
      [⟨"sr1", "p1", "s1", "s2", some "knows", none, some 1, none⟩] }

/-- State after deleting project p1 from the two-project state. -/
def cascadeCexDeleted : Db :=
  match deleteProject cascadeCexDb "p1" with
  | Except.ok d => d
  | Except.error _ => cascadeCexDb

/-- State after deleting node n1 from the two-project state. -/
def nodeDeletedDb : Db :=
  match deleteNode cascadeCexDb "n1" with
  | Except.ok d => d
  | Except.error _ => cascadeCexDb

/-- Post-migration state holding a single project p1. -/
def oneProjectDb : Db :=
  { initialDb with projects := [⟨"p1", "Alpha", none, none, none⟩] }

/-- Workflow row violating both claimed bounds: loop_max_count 0 and
timeout_seconds -1. -/
def badWorkflow : WorkflowRow :=
  ⟨"w0", "p1", "Broken", none, some 0, some (-1), none, none⟩

/-- State after inserting the violating workflow row. -/
def badWorkflowDb : Db :=
  match insertWorkflow oneProjectDb badWorkflow with
  | Except.ok d => d
  | Except.error _ => oneProjectDb

/-- Workflow row built with the schema defaults, for the compliant-writer
witness. -/
def goodWorkflow : WorkflowRow := mkWorkflowDefaults "w1" "p1" "Main" (some "t0")

/-- State after inserting the default-valued workflow row. -/
def goodWorkflowDb : Db :=
  match insertWorkflow oneProjectDb goodWorkflow with
  | Except.ok d => d
  | Except.error _ => oneProjectDb

/-- One-project state with a single setting s1, base of the parent_id
witness. -/
def settingParentDb : Db :=
  { initialDb with
    projects := [⟨"p1", "Alpha", none, none, none⟩]
    settings :=
      [⟨"s1", "p1", "character", "Hero", "tall", some 1, none, none, none,
        some 0, some "manual", some "medium", none, none⟩] }

/-- A second setting of the same project, whose parent_id points at s1. -/
def childSetting : SettingRow :=
  ⟨"s2", "p1", "character", "Mentor", "wise", some 1, none, none, some "s1",
   some 1, some "manual", some "medium", none, none⟩

/-- One-project state with one workflow w1 and no versions, base of the
version-number scenario. -/
def versionDb0 : Db :=
  { initialDb with
    projects := [⟨"p1", "Alpha", none, none, none⟩]
    workflows := [⟨"w1", "p1", "Main", none, some 10, some 300, none, none⟩] }

/-- State after creating the first snapshot of w1. -/
def versionDb1 : Db :=
  match createWorkflowVersion versionDb0 "v1" "w1" "snapA" none "t1" with
  | Except.ok d => d
  | Except.error _ => versionDb0

/-- State after creating the second snapshot of w1. -/
def versionDb2 : Db :=
  match createWorkflowVersion versionDb1 "v2" "w1" "snapB" none "t2" with
  | Except.ok d => d
  | Except.error _ => versionDb1

/-- State after creating the third snapshot of w1. -/
def versionDb3 : Db :=
  match createWorkflowVersion versionDb2 "v3" "w1" "snapC" none "t3" with
  | Except.ok d => d
  | Except.error _ => versionDb2

/-!
Theorems.  Helper lemmas come first, then one theorem per claim (with its
witness or counterexample where required).
-/

/-- A successful run of a pending list records exactly its versions, in
order, after the previously recorded ones. -/
theorem applyPending_applied :
    ∀ (ms : List Migration) (s s2 : RunnerState),
      applyPending s ms = Except.ok s2 →
      s2.applied = s.applied ++ ms.map Migration.version := by
  intro ms
  induction ms with
  | nil =>
      intro s s2 h
      simp only [applyPending] at h
      cases h
      simp
  | cons m rest ih =>
      intro s s2 h
      simp only [applyPending] at h
      cases hm : execMigration s.db m with
      | error e => rw [hm] at h; exact Except.noConfusion h
      | ok db2 =>
          rw [hm] at h
          have h2 := ih _ _ h
          simp only [h2]
          simp [List.append_assoc]

/-- On the concrete migration list of the source, the pending steps for a
recorded maximum a are exactly the suffix of the list after position a. -/
theorem pending_eq_drop (a : Nat) :
    pendingMigs migrations a = migrations.drop a := by
  rcases Nat.lt_or_ge a 6 with h | h
  · interval_cases a <;> rfl
  · obtain ⟨n, rfl⟩ : ∃ n, a = 6 + n := ⟨a - 6, by omega⟩
    have hf : migrations.filter (fun m => 6 + n < m.version) = [] := by
      rw [List.filter_eq_nil_iff]
      intro m hm
      fin_cases hm <;>
        simp [migration1, migration2, migration3, migration4, migration5,
          migration6] <;> omega
    have hd : migrations.drop (6 + n) = [] := by
      apply List.drop_eq_nil_of_le
      have h6 : migrations.length = 6 := rfl
      omega
    unfold pendingMigs
    rw [hf, hd]
    rfl

/-- Ordering facts about the pending sequence on the concrete migration
list: ascending, without repetition, all above the recorded maximum, and
complete for the registered steps above the recorded maximum. -/
theorem pending_props (a : Nat) :
    List.Chain' (fun x y => x < y) ((pendingMigs migrations a).map Migration.version) ∧
    ((pendingMigs migrations a).map Migration.version).Nodup ∧
    (∀ v ∈ (pendingMigs migrations a).map Migration.version, a < v) ∧
    (∀ m ∈ migrations, a < m.version →
        m.version ∈ (pendingMigs migrations a).map Migration.version) := by
  rw [pending_eq_drop]
  rcases Nat.lt_or_ge a 6 with h | h
  · interval_cases a <;>
      refine ⟨?_, by decide, by decide, by decide⟩ <;>
      simp [migrations, migration1, migration2, migration3, migration4,
        migration5, migration6, List.chain'_cons]
  · obtain ⟨n, rfl⟩ : ∃ n, a = 6 + n := ⟨a - 6, by omega⟩
    have hd : migrations.drop (6 + n) = [] := by
      apply List.drop_eq_nil_of_le
      have h6 : migrations.length = 6 := rfl
      omega
    rw [hd]
    refine ⟨by simp, by simp, by simp, ?_⟩
    intro m hm hv
    exfalso
    fin_cases hm <;>
      simp [migration1, migration2, migration3, migration4, migration5,
        migration6] at hv <;> omega

/-- C1: starting from a fresh (empty) database file, the full migration
sequence succeeds and yields exactly the ten tables of spec section 3 (in
creation order), the runner records versions 1 through 6 in its tracking
state, the seeded global_config row is present, and a second invocation of
the runner selects no pending step and returns the identical state. -/
theorem migrations_fresh_schema_then_noop :
    runMigrations migrations freshRunnerState = Except.ok migratedState ∧
    migratedState.db.tables.map TableSchema.name =
      ["projects", "workflows", "nodes", "settings", "setting_prompts",
       "global_config", "executions", "node_results", "workflow_versions",
       "setting_relations"] ∧
    migratedState.applied = [1, 2, 3, 4, 5, 6] ∧
    migratedState.db.gcRows = [⟨1, "\x7b\x7d", "system"⟩] ∧
    pendingMigs migrations (maxVersion migratedState.applied) = [] ∧
    runMigrations migrations migratedState = Except.ok migratedState := by
  exact ⟨rfl, rfl, rfl, rfl, rfl, rfl⟩

/-- C2: the registered migration steps carry unique, strictly ascending
version numbers, and any successful run applies exactly the pending steps
(those whose version exceeds the highest recorded one), in ascending
order, each exactly once, recording them in order. -/
theorem runner_applies_exactly_pending_ascending (s s2 : RunnerState)
    (h : runMigrations migrations s = Except.ok s2) :
    List.Chain' (fun x y => x < y) (migrations.map Migration.version) ∧
    s2.applied = s.applied ++
      (pendingMigs migrations (maxVersion s.applied)).map Migration.version ∧
    List.Chain' (fun x y => x < y)
      ((pendingMigs migrations (maxVersion s.applied)).map Migration.version) ∧
    ((pendingMigs migrations (maxVersion s.applied)).map Migration.version).Nodup ∧
    (∀ v ∈ (pendingMigs migrations (maxVersion s.applied)).map Migration.version,
        maxVersion s.applied < v) ∧
    (∀ m ∈ migrations, maxVersion s.applied < m.version →
        m.version ∈ (pendingMigs migrations (maxVersion s.applied)).map Migration.version) := by
  have hp := pending_props (maxVersion s.applied)
  have happ : applyPending s (pendingMigs migrations (maxVersion s.applied)) = Except.ok s2 := by
    unfold runMigrations at h
    split at h
    · exact Except.noConfusion h
    · exact h
  have hchain : List.Chain' (fun x y => x < y) (migrations.map Migration.version) := by
    simp [migrations, migration1, migration2, migration3, migration4, migration5,
      migration6, List.chain'_cons]
  exact ⟨hchain, applyPending_applied _ _ _ happ, hp.1, hp.2.1, hp.2.2.1, hp.2.2.2⟩

/-- Witness for C2: the hypothesis holds on the fresh state, and the run
records exactly the pending versions. -/
theorem runner_applies_exactly_pending_ascending_witness :
    migratedState.applied = freshRunnerState.applied ++
      (pendingMigs migrations (maxVersion freshRunnerState.applied)).map Migration.version :=
  (runner_applies_exactly_pending_ascending freshRunnerState migratedState rfl).2.1

/-- Counterexample to C5 as stated: re-executing migration step 2 against
the fully migrated database errors, because ALTER TABLE ... ADD COLUMN
carries no IF NOT EXISTS guard and the parent_id column already exists. -/
theorem rerun_alter_step_errors :
    exceptOk (execMigration migratedState.db migration2) = false := by
  rfl

/-- C5 as amended: the steps consisting only of CREATE TABLE and CREATE
INDEX statements (1 and 5) are fully guarded with IF NOT EXISTS and
re-execute against the migrated database without error and without change,
while the steps containing ALTER TABLE ... ADD COLUMN statements (2, 3, 4
and 6), for which SQLite offers no guard, error when re-executed. -/
theorem guarded_creates_idempotent_alter_steps_not :
    execMigration migratedState.db migration1 = Except.ok migratedState.db ∧
    execMigration migratedState.db migration5 = Except.ok migratedState.db ∧
    exceptOk (execMigration migratedState.db migration2) = false ∧
    exceptOk (execMigration migratedState.db migration3) = false ∧
    exceptOk (execMigration migratedState.db migration4) = false ∧
    exceptOk (execMigration migratedState.db migration6) = false := by
  exact ⟨rfl, rfl, rfl, rfl, rfl, rfl⟩

/-- C10: the INSERT OR IGNORE seed of migration 1 never overwrites an
existing configuration — whenever a global_config row with id 1 already
exists, the seed statement returns every row, every field included,
unchanged. -/
theorem seed_ignores_existing_global_config (rows : List GlobalConfigRow)
    (h : rows.any (fun r => r.id = 1) = true) :
    seedGlobalConfigRows rows = rows := by
  simp [seedGlobalConfigRows, h]

/-- Witness for C10: a customized row with id 1 survives the seed
untouched. -/
theorem seed_ignores_existing_global_config_witness :
    seedGlobalConfigRows [⟨1, "custom", some "dark", some 5, some 60, some "x"⟩] =
      [⟨1, "custom", some "dark", some 5, some 60, some "x"⟩] :=
  seed_ignores_existing_global_config
    [⟨1, "custom", some "dark", some 5, some 60, some "x"⟩] (by decide)

/-- C4: immediately after the migrations the global_config table holds
exactly one row with the sentinel id 1, theme system and ai_providers the
empty object; Set keeps the table a singleton with id 1 and a following
Get returns exactly the values just set. -/
theorem global_config_singleton_seed_roundtrip :
    gcSingleton initialDb = true ∧
    getGlobalConfig initialDb =
      some ⟨1, "\x7b\x7d", some "system", some 10, some 300, none⟩ ∧
    (∀ (db : Db) (c : GlobalConfigRow), gcSingleton db = true →
      gcSingleton (setGlobalConfig db c) = true ∧
      getGlobalConfig (setGlobalConfig db c) =
        some ⟨1, c.ai_providers, c.theme, c.default_loop_max, c.default_timeout,
          c.setting_assistant⟩) := by
  refine ⟨rfl, rfl, ?_⟩
  intro db c h
  simp only [gcSingleton, Bool.and_eq_true, List.all_eq_true, decide_eq_true_eq,
    decide_eq_true_eq] at h
  obtain ⟨h1, h2⟩ := h
  cases hgc : db.global_config with
  | nil => rw [hgc] at h1; simp at h1
  | cons r rest =>
      rw [hgc] at h1
      have hrest : rest = [] := by
        cases rest with
        | nil => rfl
        | cons x xs =>
            exfalso
            rw [List.length_cons, List.length_cons] at h1
            omega
      subst hrest
      have hr1 : r.id = 1 := h2 r (by rw [hgc]; exact List.mem_singleton_self r)
      constructor
      · simp [gcSingleton, setGlobalConfig, hgc, hr1]
      · simp [getGlobalConfig, setGlobalConfig, hgc, hr1, List.find?]

/-- Witness for C4: setting a configuration whose id field is not the
sentinel still yields a singleton table with id 1 holding exactly the new
values. -/
theorem global_config_singleton_seed_roundtrip_witness :
    gcSingleton (setGlobalConfig initialDb ⟨2, "abc", none, none, none, some "y"⟩) = true ∧
    getGlobalConfig (setGlobalConfig initialDb ⟨2, "abc", none, none, none, some "y"⟩) =
      some ⟨1, "abc", none, none, none, some "y"⟩ :=
  global_config_singleton_seed_roundtrip.2.2 initialDb
    ⟨2, "abc", none, none, none, some "y"⟩ rfl

/-- C9: deleting a Node removes only that node row — the node_results
table (node_id column included), and every other table, are returned
unchanged, because no table declares a foreign key referencing nodes. -/
theorem delete_node_preserves_node_results (db db2 : Db) (nid : String)
    (h : deleteNode db nid = Except.ok db2) :
    db2.node_results = db.node_results ∧
    (∀ r ∈ db.node_results, r.node_id = nid → r ∈ db2.node_results) ∧
    db2.projects = db.projects ∧
    db2.workflows = db.workflows ∧
    db2.settings = db.settings ∧
    db2.setting_prompts = db.setting_prompts ∧
    db2.global_config = db.global_config ∧
    db2.executions = db.executions ∧
    db2.workflow_versions = db.workflow_versions ∧
    db2.setting_relations = db.setting_relations := by
  unfold deleteNode at h
  split at h
  · cases h
    exact ⟨rfl, fun r hr _ => hr, rfl, rfl, rfl, rfl, rfl, rfl, rfl, rfl⟩
  · exact Except.noConfusion h

/-- Witness for C9: deleting node n1 from the two-project state leaves
both node_results rows (each with node_id n1) untouched. -/
theorem delete_node_preserves_node_results_witness :
    nodeDeletedDb.node_results = cascadeCexDb.node_results ∧
    (∀ r ∈ cascadeCexDb.node_results, r.node_id = "n1" → r ∈ nodeDeletedDb.node_results) ∧
    nodeDeletedDb.projects = cascadeCexDb.projects ∧
    nodeDeletedDb.workflows = cascadeCexDb.workflows ∧
    nodeDeletedDb.settings = cascadeCexDb.settings ∧
    nodeDeletedDb.setting_prompts = cascadeCexDb.setting_prompts ∧
    nodeDeletedDb.global_config = cascadeCexDb.global_config ∧
    nodeDeletedDb.executions = cascadeCexDb.executions ∧
    nodeDeletedDb.workflow_versions = cascadeCexDb.workflow_versions ∧
    nodeDeletedDb.setting_relations = cascadeCexDb.setting_relations :=
  delete_node_preserves_node_results cascadeCexDb nodeDeletedDb "n1" rfl

/-- The id of a workflow of the project is among the cascade-deleted
workflow ids. -/
theorem mem_workflowIdsOf (db : Db) (pid : String) (w : WorkflowRow)
    (hw : w ∈ db.workflows) (hp : w.project_id = pid) :
    w.id ∈ workflowIdsOf db pid := by
  unfold workflowIdsOf
  exact List.mem_map_of_mem WorkflowRow.id (List.mem_filter.mpr ⟨hw, by simp [hp]⟩)

/-- The id of an execution of a cascade-deleted workflow is among the
cascade-deleted execution ids. -/
theorem mem_executionIdsOf (db : Db) (wids : List String) (e : ExecutionRow)
    (he : e ∈ db.executions) (hw : e.workflow_id ∈ wids) :
    e.id ∈ executionIdsOf db wids := by
  unfold executionIdsOf
  exact List.mem_map_of_mem ExecutionRow.id (List.mem_filter.mpr ⟨he, by simp [hw]⟩)

/-- The id of a setting of the project is among the cascade-deleted
setting ids. -/
theorem mem_settingIdsOf (db : Db) (pid : String) (s : SettingRow)
    (hs : s ∈ db.settings) (hp : s.project_id = pid) :
    s.id ∈ settingIdsOf db pid := by
  unfold settingIdsOf
  exact List.mem_map_of_mem SettingRow.id (List.mem_filter.mpr ⟨hs, by simp [hp]⟩)

/-- Counterexample to C3 as stated: in the two-project state, node n1
belongs to workflow w1 of project p1, the deletion of p1 succeeds and
removes n1, yet a node_results row referencing n1 survives — it belongs to
an execution of the other project and node_results.node_id carries no
foreign key. -/
theorem project_delete_foreign_node_result_survives :
    exceptOk (deleteProject cascadeCexDb "p1") = true ∧
    cascadeCexDb.workflows.any (fun w => w.id = "w1" ∧ w.project_id = "p1") = true ∧
    cascadeCexDb.nodes.any (fun n => n.id = "n1" ∧ n.workflow_id = "w1") = true ∧
    cascadeCexDeleted.nodes.all (fun n => ¬ n.id = "n1") = true ∧
    cascadeCexDeleted.node_results.any (fun r => r.node_id = "n1") = true := by
  exact ⟨rfl, rfl, rfl, rfl, rfl⟩

/-- C3 as amended: deleting a Project cascades through the declared
foreign keys — it removes every workflow, setting, prompt and relation of
the project, every node, execution and version of those workflows, every
node result of those executions, and every relation touching a deleted
setting, leaving no surviving row whose declared foreign-key column
references the project, its workflows or their executions; global_config
is untouched.  (Rows of other projects may still mention a deleted node
through the unconstrained node_results.node_id column.) -/
theorem delete_project_cascades_ownership_tree (db db2 : Db) (pid : String)
    (h : deleteProject db pid = Except.ok db2) :
    (∀ p ∈ db2.projects, ¬ p.id = pid) ∧
    (∀ w ∈ db2.workflows, ¬ w.project_id = pid) ∧
    (∀ s ∈ db2.settings, ¬ s.project_id = pid) ∧
    (∀ sp ∈ db2.setting_prompts, ¬ sp.project_id = pid) ∧
    (∀ sr ∈ db2.setting_relations, ¬ sr.project_id = pid) ∧
    (∀ w ∈ db.workflows, w.project_id = pid →
        (∀ n ∈ db2.nodes, ¬ n.workflow_id = w.id) ∧
        (∀ e ∈ db2.executions, ¬ e.workflow_id = w.id) ∧
        (∀ v ∈ db2.workflow_versions, ¬ v.workflow_id = w.id)) ∧
    (∀ w ∈ db.workflows, w.project_id = pid →
        ∀ e ∈ db.executions, e.workflow_id = w.id →
          ∀ r ∈ db2.node_results, ¬ r.execution_id = e.id) ∧
    (∀ s ∈ db.settings, s.project_id = pid →
        ∀ sr ∈ db2.setting_relations, ¬ sr.source_id = s.id ∧ ¬ sr.target_id = s.id) ∧
    db2.global_config = db.global_config := by
  unfold deleteProject at h
  split at h
  · rw [Except.ok.injEq] at h
    subst h
    refine ⟨?_, ?_, ?_, ?_, ?_, ?_, ?_, ?_, rfl⟩
    · intro p hp
      simp only [List.mem_filter, decide_eq_true_eq] at hp
      exact hp.2
    · intro w hw
      simp only [List.mem_filter, decide_eq_true_eq] at hw
      exact hw.2
    · intro s hs
      simp only [List.mem_filter, decide_eq_true_eq] at hs
      exact hs.2
    · intro sp hsp
      simp only [List.mem_filter, decide_eq_true_eq] at hsp
      exact hsp.2
    · intro sr hsr
      simp only [List.mem_filter, decide_eq_true_eq] at hsr
      exact hsr.2.1
    · intro w hw hwp
      refine ⟨?_, ?_, ?_⟩
      · intro n hn hne
        simp only [List.mem_filter, decide_eq_true_eq] at hn
        exact hn.2 (by rw [hne]; exact mem_workflowIdsOf db pid w hw hwp)
      · intro e he hee
        simp only [List.mem_filter, decide_eq_true_eq] at he
        exact he.2 (by rw [hee]; exact mem_workflowIdsOf db pid w hw hwp)
      · intro v hv hvv
        simp only [List.mem_filter, decide_eq_true_eq] at hv
        exact hv.2 (by rw [hvv]; exact mem_workflowIdsOf db pid w hw hwp)
    · intro w hw hwp e he hew r hr hre
      simp only [List.mem_filter, decide_eq_true_eq] at hr
      apply hr.2
      rw [hre]
      apply mem_executionIdsOf db _ e he
      rw [hew]
      exact mem_workflowIdsOf db pid w hw hwp
    · intro s hs hsp sr hsr
      simp only [List.mem_filter, decide_eq_true_eq] at hsr
      constructor
      · intro hq
        exact hsr.2.2.1 (by rw [hq]; exact mem_settingIdsOf db pid s hs hsp)
      · intro hq
        exact hsr.2.2.2 (by rw [hq]; exact mem_settingIdsOf db pid s hs hsp)
  · exact Except.noConfusion h

/-- Witness for C3: deleting p1 from the two-project state succeeds; no
surviving workflow belongs to p1 and the configuration row is untouched. -/
theorem delete_project_cascades_ownership_tree_witness :
    (∀ w ∈ cascadeCexDeleted.workflows, ¬ w.project_id = "p1") ∧
    cascadeCexDeleted.global_config = cascadeCexDb.global_config := by
  have h := delete_project_cascades_ownership_tree cascadeCexDb cascadeCexDeleted "p1" rfl
  exact ⟨h.2.1, h.2.2.2.2.2.2.2.2⟩

/-- Counterexample to C7 as stated: the schema puts no CHECK constraint on
workflows, so inserting a row with loop_max_count 0 and timeout_seconds -1
succeeds, and the stored table then violates the claimed bounds. -/
theorem workflow_bounds_not_schema_enforced :
    insertWorkflow oneProjectDb badWorkflow = Except.ok badWorkflowDb ∧
    badWorkflowDb.workflows.all workflowBoundsOk = false := by
  exact ⟨rfl, rfl⟩

/-- Unfolding of the bounds predicate on a workflow row. -/
theorem workflowBoundsOk_iff (w : WorkflowRow) :
    workflowBoundsOk w = true ↔
      (∃ a, w.loop_max_count = some a ∧ 1 ≤ a) ∧
      (∃ b, w.timeout_seconds = some b ∧ 0 ≤ b) := by
  rcases hl : w.loop_max_count with _ | a <;> rcases ht : w.timeout_seconds with _ | b <;>
    simp [workflowBoundsOk, hl, ht]

/-- C7 as amended: the schema does not enforce the bounds (see the
counterexample); rows built with the schema column defaults (10 and 300)
satisfy them, and both Create and Update preserve the bounds exactly when
the writer supplies compliant values — the invariant is the caller's
responsibility. -/
theorem workflow_bounds_preserved_for_compliant_writers :
    (∀ (wid pid wname : String) (ts : Option String),
        workflowBoundsOk (mkWorkflowDefaults wid pid wname ts) = true) ∧
    (∀ (db db2 : Db) (w : WorkflowRow),
        insertWorkflow db w = Except.ok db2 →
        workflowBoundsOk w = true →
        db.workflows.all workflowBoundsOk = true →
        db2.workflows.all workflowBoundsOk = true) ∧
    (∀ (db db2 : Db) (wid : String) (p : WorkflowPatch) (ts : String),
        updateWorkflow db wid p ts = Except.ok db2 →
        (∀ v, p.loop_max_count = some v → ∃ k, v = some k ∧ 1 ≤ k) →
        (∀ v, p.timeout_seconds = some v → ∃ k, v = some k ∧ 0 ≤ k) →
        db.workflows.all workflowBoundsOk = true →
        db2.workflows.all workflowBoundsOk = true) := by
  refine ⟨fun _ _ _ _ => rfl, ?_, ?_⟩
  · intro db db2 w h hw hall
    unfold insertWorkflow at h
    split at h
    · exact Except.noConfusion h
    · split at h
      · rw [Except.ok.injEq] at h
        subst h
        simp only [List.all_append, List.all_cons, List.all_nil, Bool.and_eq_true]
        exact ⟨hall, hw, trivial⟩
      · exact Except.noConfusion h
  · intro db db2 wid p ts h hloop htime hall
    unfold updateWorkflow at h
    split at h
    · rw [Except.ok.injEq] at h
      subst h
      rw [List.all_eq_true]
      intro x hx
      rcases List.mem_map.mp hx with ⟨w, hwmem, rfl⟩
      have hwold := List.all_eq_true.mp hall w hwmem
      by_cases hid : w.id = wid
      · rw [if_pos hid]
        rw [workflowBoundsOk_iff]
        have hold := (workflowBoundsOk_iff w).mp hwold
        constructor
        · show ∃ a, (applyWorkflowPatch w p ts).loop_max_count = some a ∧ 1 ≤ a
          rcases hp : p.loop_max_count with _ | v
          · simpa [applyWorkflowPatch, patchField, hp] using hold.1
          · rcases hloop v hp with ⟨k, rfl, hk⟩
            exact ⟨k, by simp [applyWorkflowPatch, patchField, hp], hk⟩
        · show ∃ b, (applyWorkflowPatch w p ts).timeout_seconds = some b ∧ 0 ≤ b
          rcases hp : p.timeout_seconds with _ | v
          · simpa [applyWorkflowPatch, patchField, hp] using hold.2
          · rcases htime v hp with ⟨k, rfl, hk⟩
            exact ⟨k, by simp [applyWorkflowPatch, patchField, hp], hk⟩
      · rw [if_neg hid]
        exact hwold
    · exact Except.noConfusion h

/-- Witness for C7 as amended: inserting the default-valued workflow into
the one-project state keeps every stored workflow within bounds. -/
theorem workflow_bounds_preserved_for_compliant_writers_witness :
    goodWorkflowDb.workflows.all workflowBoundsOk = true :=
  workflow_bounds_preserved_for_compliant_writers.2.1 oneProjectDb goodWorkflowDb
    goodWorkflow rfl rfl rfl

/-- C8: the store never checks settings.parent_id — success of a Setting
create does not depend on the parent_id value, a create whose parent_id
points at another setting of the same project succeeds outright, and
success of a Setting update does not depend on the patch at all. -/
theorem setting_parent_id_never_constraint_checked :
    (∀ (db : Db) (s : SettingRow) (p q : Option String),
        exceptOk (insertSetting db { s with parent_id := p }) =
          exceptOk (insertSetting db { s with parent_id := q })) ∧
    (∀ (db : Db) (s parent : SettingRow),
        parent ∈ db.settings → parent.project_id = s.project_id →
        db.settings.any (fun s2 => s2.id = s.id) = false →
        db.projects.any (fun pr => pr.id = s.project_id) = true →
        insertSetting db { s with parent_id := some parent.id } =
          Except.ok { db with
            settings := db.settings ++ [{ s with parent_id := some parent.id }] }) ∧
    (∀ (db : Db) (sid : String) (p1 p2 : SettingPatch) (ts : String),
        exceptOk (updateSetting db sid p1 ts) = exceptOk (updateSetting db sid p2 ts)) := by
  refine ⟨?_, ?_, ?_⟩
  · intro db s p q
    simp only [insertSetting]
    cases hA : db.settings.any (fun s2 => s2.id = s.id) with
    | true => simp [hA]
    | false =>
        cases hB : db.projects.any (fun pr => pr.id = s.project_id) with
        | true => simp [hA, hB, exceptOk]
        | false => simp [hA, hB, exceptOk]
  · intro db s parent hmem hproj hA hB
    simp only [insertSetting]
    simp [hA, hB]
  · intro db sid p1 p2 ts
    simp only [updateSetting]
    cases hA : db.settings.any (fun s0 => s0.id = sid) with
    | true => simp [hA, exceptOk]
    | false => simp [hA, exceptOk]

/-- Witness for C8: inserting the child setting (parent_id pointing at s1
of the same project) into the one-setting state succeeds. -/
theorem setting_parent_id_never_constraint_checked_witness :
    insertSetting settingParentDb { childSetting with parent_id := some "s1" } =
      Except.ok { settingParentDb with
        settings := settingParentDb.settings ++
          [{ childSetting with parent_id := some "s1" }] } :=
  setting_parent_id_never_constraint_checked.2.1 settingParentDb childSetting
    ⟨"s1", "p1", "character", "Hero", "tall", some 1, none, none, none, some 0,
     some "manual", some "medium", none, none⟩
    (by decide) rfl rfl rfl

/-- Any version number stored for a row of the list is bounded by the
folded maximum. -/
theorem le_foldr_max (l : List WorkflowVersionRow) (v : WorkflowVersionRow) (hv : v ∈ l) :
    v.version_number ≤ l.foldr (fun x acc => max x.version_number acc) 0 := by
  induction l with
  | nil => cases hv
  | cons x xs ih =>
      rcases List.mem_cons.mp hv with h | h
      · subst h
        exact le_max_left _ _
      · exact le_trans (ih h) (le_max_right _ _)

/-- A find that succeeds on a prefix succeeds unchanged on the extended
list. -/
theorem find_some_append {α : Type} (p : α → Bool) (l1 l2 : List α) (a : α)
    (h : l1.find? p = some a) : (l1 ++ l2).find? p = some a := by
  induction l1 with
  | nil => simp [List.find?] at h
  | cons x xs ih =>
      rw [List.cons_append]
      cases hpx : p x with
      | true =>
          rw [List.find?_cons_of_pos _ hpx] at h
          rw [List.find?_cons_of_pos _ hpx]
          exact h
      | false =>
          have hneg : ¬ p x = true := by simp [hpx]
          rw [List.find?_cons_of_neg _ hneg] at h
          rw [List.find?_cons_of_neg _ hneg]
          exact ih h

/-- C6: a successful snapshot creation appends a row whose version number
strictly exceeds every version number already stored for that workflow;
earlier rows are untouched, so re-reading an earlier version returns the
original snapshot unchanged; and on the concrete scenario three creations
yield version numbers 1, 2, 3 with their three distinct snapshots. -/
theorem workflow_version_increasing_snapshot_immutable
    (db db2 : Db) (vid wfid snap : String) (descr : Option String) (ts : String)
    (h : createWorkflowVersion db vid wfid snap descr ts = Except.ok db2) :
    (∀ v ∈ db.workflow_versions, v.workflow_id = wfid →
        v.version_number < nextVersionNumber db wfid) ∧
    db2.workflow_versions = db.workflow_versions ++
      [WorkflowVersionRow.mk vid wfid (nextVersionNumber db wfid) snap descr (some ts)] ∧
    (∀ (vid0 : String) (v : WorkflowVersionRow),
        readWorkflowVersion db vid0 = some v → readWorkflowVersion db2 vid0 = some v) ∧
    versionDb3.workflow_versions.map WorkflowVersionRow.version_number = [1, 2, 3] ∧
    versionDb3.workflow_versions.map WorkflowVersionRow.snapshot =
      ["snapA", "snapB", "snapC"] := by
  have hmono : ∀ v ∈ db.workflow_versions, v.workflow_id = wfid →
      v.version_number < nextVersionNumber db wfid := by
    intro v hv hw
    unfold nextVersionNumber
    have hmem : v ∈ db.workflow_versions.filter (fun x => x.workflow_id = wfid) :=
      List.mem_filter.mpr ⟨hv, by simp [hw]⟩
    have hle := le_foldr_max _ v hmem
    omega
  simp only [createWorkflowVersion] at h
  split at h
  · exact Except.noConfusion h
  · split at h
    · rw [Except.ok.injEq] at h
      subst h
      refine ⟨hmono, rfl, ?_, rfl, rfl⟩
      intro vid0 v hv
      unfold readWorkflowVersion at hv ⊢
      exact find_some_append _ _ _ _ hv
    · exact Except.noConfusion h

/-- Witness for C6: the first creation on the fresh workflow appends
version 1, and the three-creation scenario yields 1, 2, 3. -/
theorem workflow_version_increasing_snapshot_immutable_witness :
    versionDb1.workflow_versions = versionDb0.workflow_versions ++
      [WorkflowVersionRow.mk "v1" "w1" (nextVersionNumber versionDb0 "w1") "snapA"
        none (some "t1")] ∧
    versionDb3.workflow_versions.map WorkflowVersionRow.version_number = [1, 2, 3] := by
  have h := workflow_version_increasing_snapshot_immutable versionDb0 versionDb1
    "v1" "w1" "snapA" none "t1" rfl
  exact ⟨h.2.1, h.2.2.2.1⟩

end ChouannNovel
